import Mathlib

/-!
Shallow embedding of the presentation-tier controller of Project::Tarot
(a Tauri + React wizard with four steps: Data, Preprocess, Train, Evaluate).

The embedding follows the TypeScript sources:
* `src/App.tsx` — wizard controller, bounded error-notification queue,
  panic/acknowledge shutdown path;
* `src/pages/Train.tsx` — confidence-point accumulator (reducer);
* `src/pages/Preprocess.tsx` — sheet/column/row selection state machine,
  submit readiness and submit action, tab-change request handling;
* `src/pages/Evaluate.tsx` — prediction-report state machine with a
  progress event stream.

JavaScript numbers are modelled as `ℚ` (the claims only involve exact
comparisons and `Math.round`, which on the relevant inputs is exact),
JavaScript strings as `String`, optional fields as `Option`, and
`new Date(s)` as a wrapper around its argument string (no claim depends
on date semantics).  Asynchronous request/response traffic is modelled by
explicit event traces: each in-flight request carries an identifier, and
a cancellation ("liveness") flag set is threaded through the machine just
as the `isCanceled` closure variables are in the source.
-/

/-! ### Error notifications (`src/components/ErrorDialog.tsx`, `src/App.tsx`) -/

/-- `ErrorInfo` from `src/components/ErrorDialog.tsx`: an error notification. -/
structure ErrorInfo where
  title : String
  message : String
deriving DecidableEq, Repr

/-- `ErrorAction` from `src/App.tsx`:
`{ type: 'add'; value: ErrorInfo } | { type: 'remove' }`. -/
inductive ErrorAction where
  | add (value : ErrorInfo)
  | remove
deriving DecidableEq, Repr

/-- The `modifyErrorInfo` reducer from `src/App.tsx` (lines 51–65).
`add`: `if (state.length >= 10) return state;` else append;
`remove`: `state.shift(); return [...state]`, i.e. drop the front. -/
def modifyErrorInfo (state : List ErrorInfo) : ErrorAction → List ErrorInfo
  | .add value => if state.length ≥ 10 then state else state ++ [value]
  | .remove => state.tail

/-- Initial value of the `useReducer` for `modifyErrorInfo`: the empty queue. -/
def initialErrorInfo : List ErrorInfo := []

/-- Pushing a whole list of notifications in order (`add` for each). -/
def pushAllErrorInfo (state : List ErrorInfo) (ns : List ErrorInfo) : List ErrorInfo :=
  ns.foldl (fun st v => modifyErrorInfo st (.add v)) state

/-- Result of `handleCloseDialog` in `src/App.tsx` (lines 128–133): the new
queue contents and whether the window is closed. -/
structure CloseDialogEffect where
  state : List ErrorInfo
  closeWindow : Bool
deriving DecidableEq, Repr

/-- `handleCloseDialog` from `src/App.tsx`: dispatches `remove`, then closes the
window when `isPanic && allErrorInfo.length <= 1`, where `allErrorInfo` is the
queue as rendered, i.e. its contents *before* the `remove` is applied. -/
def handleCloseDialog (isPanic : Bool) (allErrorInfo : List ErrorInfo) :
    CloseDialogEffect :=
  { state := modifyErrorInfo allErrorInfo .remove
    closeWindow := isPanic && decide (allErrorInfo.length ≤ 1) }

/-! ### Train step (`src/pages/Train.tsx`) -/

/-- `Point` from `src/pages/Train.tsx`: one confidence sample. -/
structure Point where
  x : ℚ
  y : ℚ
deriving DecidableEq, Repr

/-- The origin point `{ x: 0, y: 0 }` used to seed and reset the graph. -/
def originPoint : Point := ⟨0, 0⟩

/-- `ConfidenceGraphAction` from `src/pages/Train.tsx`. -/
inductive ConfidenceGraphAction where
  | set (value : List Point)
  | add (value : Point)
  | clear
deriving DecidableEq, Repr

/-- The `modifyConfidenceGraph` reducer from `src/pages/Train.tsx`
(lines 50–65).
`add`: `if (state.length === 1 && state[0].x === 0 && action.value.x === 0)
return [action.value]; else return [...state, action.value]`;
`set`: `if (action.value.length > 0) return action.value;` otherwise it
falls through to `clear`, which returns `[{ x: 0, y: 0 }]`. -/
def modifyConfidenceGraph (state : List Point) : ConfidenceGraphAction → List Point
  | .add value =>
      if state.length = 1 ∧ (state.headD originPoint).x = 0 ∧ value.x = 0 then
        [value]
      else state ++ [value]
  | .set value => if value.length > 0 then value else [originPoint]
  | .clear => [originPoint]

/-- Initial value of the `useReducer` for `modifyConfidenceGraph`. -/
def initialConfidencePoints : List Point := [originPoint]

/-! A quick sanity example used while developing, kept as theorems below. -/

/-- C4: `appendPoint` restart rule.  Adding a point replaces the sequence with
the singleton `[p]` exactly when the current sequence has length 1, its only
element has `x = 0`, and the incoming point has `x = 0`; in every other case
the point is appended at the back.  Includes the two concrete examples from
the spec: `[(0,0)]` + add `(0,5)` → `[(0,5)]`, and `[(0,0),(1,10)]` + add
`(0,5)` → `[(0,0),(1,10),(0,5)]`. -/
theorem modifyConfidenceGraph_add_restart_rule (s : List Point) (p : Point) :
    (s.length = 1 → (s.headD originPoint).x = 0 → p.x = 0 →
      modifyConfidenceGraph s (.add p) = [p]) ∧
    (¬ (s.length = 1 ∧ (s.headD originPoint).x = 0 ∧ p.x = 0) →
      modifyConfidenceGraph s (.add p) = s ++ [p]) ∧
    modifyConfidenceGraph [⟨0, 0⟩] (.add ⟨0, 5⟩) = [⟨0, 5⟩] ∧
    modifyConfidenceGraph [⟨0, 0⟩, ⟨1, 10⟩] (.add ⟨0, 5⟩) =
      [⟨0, 0⟩, ⟨1, 10⟩, ⟨0, 5⟩] := by
  refine ⟨fun h1 h2 h3 => ?_, fun h => ?_, by decide, by decide⟩
  · simp only [modifyConfidenceGraph]
    rw [if_pos ⟨h1, h2, h3⟩]
  · simp only [modifyConfidenceGraph]
    rw [if_neg h]

/-- Witness for `modifyConfidenceGraph_add_restart_rule` at a concrete input. -/
theorem modifyConfidenceGraph_add_restart_rule_witness :
    (([⟨0, 0⟩] : List Point).length = 1 → (([⟨0, 0⟩] : List Point).headD originPoint).x = 0 →
      (⟨0, 5⟩ : Point).x = 0 →
      modifyConfidenceGraph [⟨0, 0⟩] (.add ⟨0, 5⟩) = [⟨0, 5⟩]) ∧
    (¬ (([⟨0, 0⟩] : List Point).length = 1 ∧
        (([⟨0, 0⟩] : List Point).headD originPoint).x = 0 ∧ (⟨0, 5⟩ : Point).x = 0) →
      modifyConfidenceGraph [⟨0, 0⟩] (.add ⟨0, 5⟩) = [⟨0, 0⟩] ++ [⟨0, 5⟩]) ∧
    modifyConfidenceGraph [⟨0, 0⟩] (.add ⟨0, 5⟩) = [⟨0, 5⟩] ∧
    modifyConfidenceGraph [⟨0, 0⟩, ⟨1, 10⟩] (.add ⟨0, 5⟩) =
      [⟨0, 0⟩, ⟨1, 10⟩, ⟨0, 5⟩] :=
  modifyConfidenceGraph_add_restart_rule [⟨0, 0⟩] ⟨0, 5⟩

/-- C7: `setSnapshot` semantics.  `set points` with non-empty `points` replaces
the whole sequence; `set []` and `clear` both reset to the single origin point
`[(0,0)]`.  Includes the spec's concrete example `setSnapshot([(2,30)])`. -/
theorem modifyConfidenceGraph_set_clear_spec (s ps : List Point) (h : ps ≠ []) :
    modifyConfidenceGraph s (.set ps) = ps ∧
    modifyConfidenceGraph s (.set []) = [originPoint] ∧
    modifyConfidenceGraph s .clear = [originPoint] ∧
    modifyConfidenceGraph [⟨0, 0⟩] (.set [⟨2, 30⟩]) = [⟨2, 30⟩] := by
  refine ⟨?_, rfl, rfl, by decide⟩
  have hlen : 0 < ps.length := List.length_pos.mpr h
  simp only [modifyConfidenceGraph]
  rw [if_pos hlen]

/-- Witness for `modifyConfidenceGraph_set_clear_spec`: instantiated at the
prior sequence `[(0,0),(1,10)]` and snapshot `[(2,30)]`. -/
theorem modifyConfidenceGraph_set_clear_spec_witness :
    ([(⟨2, 30⟩ : Point)] ≠ []) ∧
    (modifyConfidenceGraph [⟨0, 0⟩, ⟨1, 10⟩] (.set [⟨2, 30⟩]) = [⟨2, 30⟩] ∧
     modifyConfidenceGraph [⟨0, 0⟩, ⟨1, 10⟩] (.set []) = [originPoint] ∧
     modifyConfidenceGraph [⟨0, 0⟩, ⟨1, 10⟩] .clear = [originPoint] ∧
     modifyConfidenceGraph [⟨0, 0⟩] (.set [⟨2, 30⟩]) = [⟨2, 30⟩]) :=
  ⟨by decide, modifyConfidenceGraph_set_clear_spec [⟨0, 0⟩, ⟨1, 10⟩] [⟨2, 30⟩] (by decide)⟩

/-- C10: the confidence-point sequence is never empty.  The reducer's initial
value is the singleton `[(0,0)]`, and every action (`set`, `add`, `clear`)
produces a non-empty sequence from any input, so reading the last element for
the latest-confidence display is always well-defined. -/
theorem modifyConfidenceGraph_never_empty (s : List Point)
    (a : ConfidenceGraphAction) :
    initialConfidencePoints = [originPoint] ∧
    initialConfidencePoints ≠ [] ∧
    modifyConfidenceGraph s a ≠ [] ∧
    0 < (modifyConfidenceGraph s a).length ∧
    (modifyConfidenceGraph s a).getLast? ≠ none := by
  have hne : modifyConfidenceGraph s a ≠ [] := by
    cases a with
    | add value =>
        simp only [modifyConfidenceGraph]
        split
        · exact List.cons_ne_nil _ _
        · exact fun hcontra => by simpa using congrArg List.length hcontra
    | set value =>
        simp only [modifyConfidenceGraph]
        split
        · next hlen => exact List.length_pos.mp hlen
        · exact List.cons_ne_nil _ _
    | clear => exact List.cons_ne_nil _ _
  refine ⟨rfl, by decide, hne, List.length_pos.mpr hne, ?_⟩
  simpa [List.getLast?_eq_none_iff] using hne

/-- C2: the notification queue is a bounded FIFO with capacity 10
(`modifyErrorInfo`, `src/App.tsx`).  Under the reachable-state invariant
`length ≤ 10`: an `add` on a full queue (length exactly 10) is a no-op, an
`add` on a shorter queue appends at the back, any action keeps the length at
most 10, and pushing any list of notifications onto the empty queue keeps
exactly the first 10 in push order (so 11 pushes keep the first 10 and drop
the 11th). -/
theorem modifyErrorInfo_capacity_spec (s : List ErrorInfo) (n : ErrorInfo)
    (a : ErrorAction) (ns : List ErrorInfo) (h : s.length ≤ 10) :
    (s.length = 10 → modifyErrorInfo s (.add n) = s) ∧
    (s.length < 10 → modifyErrorInfo s (.add n) = s ++ [n]) ∧
    (modifyErrorInfo s a).length ≤ 10 ∧
    pushAllErrorInfo initialErrorInfo ns = ns.take 10 := by
  have key : ∀ (ms : List ErrorInfo) (st : List ErrorInfo), st.length ≤ 10 →
      pushAllErrorInfo st ms = st ++ ms.take (10 - st.length) := by
    intro ms
    induction ms with
    | nil => intro st _; simp [pushAllErrorInfo]
    | cons v ms ih =>
        intro st hst
        by_cases hfull : st.length ≥ 10
        · have h10 : st.length = 10 := le_antisymm hst hfull
          have step1 : modifyErrorInfo st (.add v) = st := by
            simp only [modifyErrorInfo]
            rw [if_pos hfull]
          calc pushAllErrorInfo st (v :: ms)
              = pushAllErrorInfo (modifyErrorInfo st (.add v)) ms := rfl
            _ = pushAllErrorInfo st ms := by rw [step1]
            _ = st ++ ms.take (10 - st.length) := ih st hst
            _ = st ++ (v :: ms).take (10 - st.length) := by
                  rw [h10]
                  simp
        · have hlt : st.length < 10 := lt_of_not_ge hfull
          have step1 : modifyErrorInfo st (.add v) = st ++ [v] := by
            simp only [modifyErrorInfo]
            rw [if_neg hfull]
          have hlen : (st ++ [v]).length ≤ 10 := by
            simpa using Nat.succ_le_of_lt hlt
          have hsub : 10 - st.length = (10 - (st.length + 1)) + 1 := by omega
          calc pushAllErrorInfo st (v :: ms)
              = pushAllErrorInfo (modifyErrorInfo st (.add v)) ms := rfl
            _ = pushAllErrorInfo (st ++ [v]) ms := by rw [step1]
            _ = (st ++ [v]) ++ ms.take (10 - (st ++ [v]).length) := ih _ hlen
            _ = st ++ (v :: ms).take (10 - st.length) := by
                  rw [hsub]
                  simp [List.take_succ_cons]
  refine ⟨fun h10 => ?_, fun hlt => ?_, ?_, ?_⟩
  · simp only [modifyErrorInfo]
    rw [if_pos (le_of_eq h10.symm)]
  · simp only [modifyErrorInfo]
    rw [if_neg (not_le_of_lt hlt)]
  · cases a with
    | add value =>
        simp only [modifyErrorInfo]
        split
        · exact h
        · next hfull =>
            have : s.length < 10 := lt_of_not_ge hfull
            simpa using Nat.succ_le_of_lt this
    | remove =>
        simp only [modifyErrorInfo, List.length_tail]
        omega
  · simpa [initialErrorInfo] using key ns [] (by simp)

/-- Witness for `modifyErrorInfo_capacity_spec`: an empty starting queue, a
push of one notification, and a batch of 11 notifications of which exactly the
first 10 survive. -/
theorem modifyErrorInfo_capacity_spec_witness :
    (([] : List ErrorInfo).length ≤ 10) ∧
    ((([] : List ErrorInfo)).length = 10 → modifyErrorInfo [] (.add ⟨"t", "m"⟩) = []) ∧
    ((([] : List ErrorInfo)).length < 10 →
      modifyErrorInfo [] (.add ⟨"t", "m"⟩) = [] ++ [⟨"t", "m"⟩]) ∧
    (modifyErrorInfo [] (.remove)).length ≤ 10 ∧
    pushAllErrorInfo initialErrorInfo
        ((List.range 11).map fun i => ⟨toString i, "m"⟩) =
      ((List.range 11).map fun i => (⟨toString i, "m"⟩ : ErrorInfo)).take 10 :=
  ⟨by decide, modifyErrorInfo_capacity_spec [] ⟨"t", "m"⟩ .remove
    ((List.range 11).map fun i => ⟨toString i, "m"⟩) (by decide)⟩

/-- C3: `handleCloseDialog` pops the oldest queued notification and closes the
window exactly when the panic flag is set and the queue length *before* the
pop is at most 1; in particular with panic set and at least two queued
notifications it advances the queue without terminating. -/
theorem handleCloseDialog_spec (p : Bool) (q : List ErrorInfo) :
    (handleCloseDialog p q).state = q.tail ∧
    ((handleCloseDialog p q).closeWindow = true ↔ p = true ∧ q.length ≤ 1) ∧
    (p = true → 2 ≤ q.length → (handleCloseDialog p q).closeWindow = false) := by
  refine ⟨rfl, ?_, fun hp hq => ?_⟩
  · simp [handleCloseDialog]
  · simp [handleCloseDialog, hp]
    omega

/-- Witness for `handleCloseDialog_spec`: the spec's panic-close test case
`panicking = true, queue = [e1, e2]`: acknowledging advances to `[e2]` without
closing the window. -/
theorem handleCloseDialog_spec_witness :
    (handleCloseDialog true [⟨"e1", "m"⟩, ⟨"e2", "m"⟩]).state =
        ([⟨"e1", "m"⟩, ⟨"e2", "m"⟩] : List ErrorInfo).tail ∧
    ((handleCloseDialog true [⟨"e1", "m"⟩, ⟨"e2", "m"⟩]).closeWindow = true ↔
      true = true ∧ ([⟨"e1", "m"⟩, ⟨"e2", "m"⟩] : List ErrorInfo).length ≤ 1) ∧
    (true = true → 2 ≤ ([⟨"e1", "m"⟩, ⟨"e2", "m"⟩] : List ErrorInfo).length →
      (handleCloseDialog true [⟨"e1", "m"⟩, ⟨"e2", "m"⟩]).closeWindow = false) :=
  handleCloseDialog_spec true [⟨"e1", "m"⟩, ⟨"e2", "m"⟩]

/-! ### Preprocess step (`src/pages/Preprocess.tsx`) -/

/-- `ColumnType` from `src/pages/Preprocess.tsx`:
`'string' | 'number' | 'dateTime' | 'boolean'`. -/
inductive ColumnType where
  | string
  | number
  | dateTime
  | boolean
deriving DecidableEq, Repr

/-- `ColumnInfo` from `src/pages/Preprocess.tsx`. -/
structure ColumnInfo where
  field : String
  headerName : String
  type : ColumnType
deriving DecidableEq, Repr

/-- A JavaScript `Date` produced by `new Date(s)`.  No claim depends on date
semantics, so the `Date` is represented by the string it was parsed from. -/
structure JsDate where
  raw : String
deriving DecidableEq, Repr

/-- One cell of a row record
(`RowInfo = Record<string, string | number | Date | boolean>`). -/
inductive CellValue where
  | str (s : String)
  | num (q : ℚ)
  | date (d : JsDate)
  | bool (b : Bool)
deriving DecidableEq, Repr

/-- A row object, modelled as an association list of field name to cell
value (JavaScript object keys are unique, which we do not need to enforce
for any claim). -/
abbrev RowInfo := List (String × CellValue)

/-- `BatchPeriode` from `src/pages/Preprocess.tsx`. -/
inductive BatchPeriode where
  | Minutely
  | Hourly
  | Daily
  | Weekly
  | Monthly
  | Yearly
deriving DecidableEq, Repr

/-- The `'include' | 'exclude'` discriminator of `RowSelection` (primed names
because `include` is a Lean keyword). -/
inductive SelectionType where
  | include'
  | exclude'
deriving DecidableEq, Repr

/-- `RowSelection` from `src/pages/Preprocess.tsx`. -/
structure RowSelection where
  type : SelectionType
  ids : List ℤ
deriving DecidableEq, Repr

/-- `SheetInfo` from `src/pages/Preprocess.tsx` (`tabName?` is optional). -/
structure SheetInfo where
  tabName : Option String
  columns : List ColumnInfo
  rows : List RowInfo
  allowedBatchPeriodes : List BatchPeriode
  selectedDatetimeColumn : String
  selectedPredictableColumn : String
  selectedBatchPeriode : BatchPeriode
  rowSelection : RowSelection
deriving DecidableEq, Repr

/-- `DataInfo` from `src/pages/Preprocess.tsx`. -/
structure DataInfo where
  name : String
  tabs : Option (List String)
  sheetInfo : SheetInfo
deriving DecidableEq, Repr

/-- `PreprocessConfig` from `src/pages/Preprocess.tsx`. -/
structure PreprocessConfig where
  tabName : Option String
  datetimeColumn : String
  predictableColumn : String
  batchPeriode : BatchPeriode
  rowSelection : RowSelection
deriving DecidableEq, Repr

/-- The local React state of `PreprocessPage`.  `selectedBatchPeriode` is
`BatchPeriode | ''` in the source, modelled as an `Option`; `pageDisabled` is
the memo `typeof props.tabIndex === 'number' && props.tabIndex < 0`. -/
structure PreprocessLocal where
  pageDisabled : Bool
  isLoading : Bool
  isSubmitting : Bool
  name : String
  tabs : List String
  columns : List ColumnInfo
  rows : List RowInfo
  allowedBatchPeriodes : List BatchPeriode
  selectedTab : String
  selectedDatetime : String
  selectedPredictable : String
  selectedBatchPeriode : Option BatchPeriode
  rowSelection : RowSelection
deriving DecidableEq, Repr

/-- The initial `useState` values of `PreprocessPage` (with the page not yet
active). -/
def initialPreprocessLocal : PreprocessLocal :=
  { pageDisabled := true, isLoading := false, isSubmitting := false
    name := "", tabs := [], columns := [], rows := []
    allowedBatchPeriodes := [], selectedTab := "", selectedDatetime := ""
    selectedPredictable := "", selectedBatchPeriode := none
    rowSelection := { type := .exclude', ids := [] } }

/-- The `disabled` memo (lines 111–114):
`pageDisabled || isLoading || isSubmitting`. -/
def disabled (st : PreprocessLocal) : Bool :=
  st.pageDisabled || st.isLoading || st.isSubmitting

/-- The `allowSubmit` memo (lines 116–132): `!disabled && selectedDatetime &&
selectedPredictable && selectedBatchPeriode && ((include && ids.length !== 0)
|| (exclude && ids.length !== rows.length))`, with JavaScript string/enum
truthiness (the empty string is falsy). -/
def allowSubmit (st : PreprocessLocal) : Bool :=
  !disabled st &&
  st.selectedDatetime != "" &&
  st.selectedPredictable != "" &&
  st.selectedBatchPeriode.isSome &&
  ((st.rowSelection.type == .include' && st.rowSelection.ids.length != 0) ||
    (st.rowSelection.type == .exclude' &&
      st.rowSelection.ids.length != st.rows.length))

/-- Field names of the columns tagged `dateTime` (the filter inside
`changeSheetInfo`). -/
def datetimeFields (columns : List ColumnInfo) : List String :=
  (columns.filter fun c => c.type == .dateTime).map (·.field)

/-- The row conversion inside `changeSheetInfo` (lines 255–272): every cell
that sits under a `dateTime`-typed column and holds a string is replaced by
`new Date(string)`; all other cells are kept. -/
def convertRow (columns : List ColumnInfo) (row : RowInfo) : RowInfo :=
  row.map fun kv =>
    if (datetimeFields columns).contains kv.1 then
      match kv.2 with
      | .str s => (kv.1, .date ⟨s⟩)
      | v => (kv.1, v)
    else kv

/-- `changeSheetInfo` (lines 253–279): the atomic snapshot-apply.  Sets
columns, converted rows, allowed batch periods, `selectedTab :=
sheetInfo.tabName ?? ''`, both column selections, the batch period, and the
row selection; it does not touch `name`, `tabs` or the flags. -/
def changeSheetInfo (st : PreprocessLocal) (si : SheetInfo) : PreprocessLocal :=
  { st with
    columns := si.columns
    rows := si.rows.map (convertRow si.columns)
    allowedBatchPeriodes := si.allowedBatchPeriodes
    selectedTab := si.tabName.getD ""
    selectedDatetime := si.selectedDatetimeColumn
    selectedPredictable := si.selectedPredictableColumn
    selectedBatchPeriode := some si.selectedBatchPeriode
    rowSelection := si.rowSelection }

/-- One entry of the trace of state updates and engine requests performed by
`handleClickStart`. -/
inductive SubmitEvent where
  | setSubmitting (value : Bool)
  | invokeSubmitPreprocessConfig (config : PreprocessConfig)
  | invokeStartTrain
deriving DecidableEq, Repr

/-- `handleClickStart` (lines 344–361), modelled as the ordered trace of its
effects, parameterised by whether the `submit_preprocess_config` request
succeeds.  `if (!selectedBatchPeriode) return;` guards the whole body;
`tabName: selectedTab || undefined` omits the tab when the string is empty;
`.finally(() => setSubmitting(false))` runs on success and on failure alike,
and `.then(() => invoke('start_train'))` fires only on success. -/
def handleClickStart (st : PreprocessLocal) (submitSucceeds : Bool) :
    List SubmitEvent :=
  match st.selectedBatchPeriode with
  | none => []
  | some bp =>
      let config : PreprocessConfig :=
        { tabName := if st.selectedTab = "" then none else some st.selectedTab
          datetimeColumn := st.selectedDatetime
          predictableColumn := st.selectedPredictable
          batchPeriode := bp
          rowSelection := st.rowSelection }
      [.setSubmitting true, .invokeSubmitPreprocessConfig config,
        .setSubmitting false] ++
        (if submitSucceeds then [.invokeStartTrain] else [])

/-- C5: `allowSubmit` is true iff the step is enabled (not page-disabled), it
is neither loading nor submitting, a datetime column, a predictable column and
a batch period are all chosen, and the row selection is non-trivial:
`(include ∧ |ids| > 0) ∨ (exclude ∧ |ids| ≠ rows.length)`. -/
theorem allowSubmit_iff (st : PreprocessLocal) :
    allowSubmit st = true ↔
      (st.pageDisabled = false ∧ st.isLoading = false ∧ st.isSubmitting = false ∧
       st.selectedDatetime ≠ "" ∧ st.selectedPredictable ≠ "" ∧
       st.selectedBatchPeriode.isSome = true ∧
       ((st.rowSelection.type = .include' ∧ 0 < st.rowSelection.ids.length) ∨
        (st.rowSelection.type = .exclude' ∧
          st.rowSelection.ids.length ≠ st.rows.length))) := by
  simp only [allowSubmit, disabled, Bool.and_eq_true, Bool.or_eq_true,
    Bool.not_eq_true', Bool.or_eq_false_iff, bne_iff_ne, ne_eq, beq_iff_eq,
    Nat.pos_iff_ne_zero]
  tauto

/-- C6: `handleClickStart` with a chosen batch period emits exactly the trace
`setSubmitting(true)`, `submit_preprocess_config(config)` (with `tabName`
omitted iff the selected tab is empty), `setSubmitting(false)` (regardless of
outcome), followed by `start_train` iff the submit succeeded. -/
theorem handleClickStart_spec (st : PreprocessLocal) (succ : Bool)
    (bp : BatchPeriode) (h : st.selectedBatchPeriode = some bp) :
    handleClickStart st succ =
      [.setSubmitting true,
       .invokeSubmitPreprocessConfig
         { tabName := if st.selectedTab = "" then none else some st.selectedTab
           datetimeColumn := st.selectedDatetime
           predictableColumn := st.selectedPredictable
           batchPeriode := bp
           rowSelection := st.rowSelection },
       .setSubmitting false] ++ (if succ then [.invokeStartTrain] else []) ∧
    (handleClickStart st succ).head? = some (.setSubmitting true) ∧
    SubmitEvent.setSubmitting false ∈ handleClickStart st succ ∧
    ((if st.selectedTab = "" then none else some st.selectedTab :
        Option String) = none ↔ st.selectedTab = "") ∧
    (SubmitEvent.invokeStartTrain ∈ handleClickStart st succ ↔ succ = true) := by
  have hrun : handleClickStart st succ =
      [.setSubmitting true,
       .invokeSubmitPreprocessConfig
         { tabName := if st.selectedTab = "" then none else some st.selectedTab
           datetimeColumn := st.selectedDatetime
           predictableColumn := st.selectedPredictable
           batchPeriode := bp
           rowSelection := st.rowSelection },
       .setSubmitting false] ++ (if succ then [.invokeStartTrain] else []) := by
    simp only [handleClickStart, h]
  refine ⟨hrun, ?_, ?_, ?_, ?_⟩
  · rw [hrun]; rfl
  · rw [hrun]; simp
  · split <;> simp_all
  · rw [hrun]; cases succ <;> simp

/-- A concrete Preprocess local state used to witness `handleClickStart_spec`:
the page is active with every field chosen. -/
def samplePreprocessLocal : PreprocessLocal :=
  { pageDisabled := false, isLoading := false, isSubmitting := false
    name := "sales.xlsx", tabs := ["Sheet1"], columns := []
    rows := [[("date", .str "2025-01-01")], [("date", .str "2025-01-02")]]
    allowedBatchPeriodes := [.Daily], selectedTab := ""
    selectedDatetime := "date", selectedPredictable := "value"
    selectedBatchPeriode := some .Daily
    rowSelection := { type := .exclude', ids := [] } }

/-- Witness for `handleClickStart_spec`: a successful submit from
`samplePreprocessLocal` (whose selected tab is empty, so `tabName` is
omitted). -/
theorem handleClickStart_spec_witness :
    samplePreprocessLocal.selectedBatchPeriode = some .Daily ∧
    (handleClickStart samplePreprocessLocal true =
      [.setSubmitting true,
       .invokeSubmitPreprocessConfig
         { tabName := if samplePreprocessLocal.selectedTab = "" then none
             else some samplePreprocessLocal.selectedTab
           datetimeColumn := samplePreprocessLocal.selectedDatetime
           predictableColumn := samplePreprocessLocal.selectedPredictable
           batchPeriode := .Daily
           rowSelection := samplePreprocessLocal.rowSelection },
       .setSubmitting false] ++
        (if (true : Bool) then [.invokeStartTrain] else []) ∧
    (handleClickStart samplePreprocessLocal true).head? =
      some (.setSubmitting true) ∧
    SubmitEvent.setSubmitting false ∈ handleClickStart samplePreprocessLocal true ∧
    ((if samplePreprocessLocal.selectedTab = "" then none
        else some samplePreprocessLocal.selectedTab : Option String) = none ↔
      samplePreprocessLocal.selectedTab = "") ∧
    (SubmitEvent.invokeStartTrain ∈ handleClickStart samplePreprocessLocal true ↔
      (true : Bool) = true)) :=
  ⟨rfl, handleClickStart_spec samplePreprocessLocal true .Daily rfl⟩

/-! #### Asynchronous trace machine for the Preprocess page

Request/response traffic is modelled by explicit events.  Each asynchronous
operation is guarded, in the source, by an `isCanceled` closure variable; the
machine assigns each such flag a natural-number identifier and records the
set of flags that have been flipped to `true`.

Fidelity note on `handleSelectTab` (lines 231–251): the function *returns* a
cleanup closure that would flip its `isCanceled` flag, but `handleSelectTab`
is an `onChange` event handler, not a `useEffect` body — React discards the
return value of event handlers, so that closure is never invoked and the
`select_sheet` flag is never flipped.  The machine therefore has no event
that cancels a `select_sheet` request.  The activation `useEffect`
(lines 281–322) does return its cleanup to React, so deactivation flips the
flag of the pending `get_data_info` fetch (and clears the 1000 ms timer,
which is folded into the resolution event). -/

/-- Machine state of the Preprocess page: the React local state plus the set
of `isCanceled` flags that have been flipped. -/
structure PreprocessMachine where
  st : PreprocessLocal
  canceledFlags : List ℕ
deriving DecidableEq, Repr

/-- Asynchronous events of the Preprocess page. -/
inductive PreprocessEvent where
  | activate (fid : ℕ)
  | deactivate (fid : ℕ)
  | resolveDataInfo (fid : ℕ) (di : DataInfo)
  | selectTab (fid : ℕ) (value : String)
  | resolveSelectSheet (fid : ℕ) (si : SheetInfo)
deriving DecidableEq, Repr

/-- The activation `useEffect` body run with the page becoming active:
`setLoading(true)`, clear name/tabs/columns/rows, then start a
`get_data_info` fetch whose liveness flag is `fid`. -/
def activateStep (m : PreprocessMachine) : PreprocessMachine :=
  { m with st := { m.st with
      pageDisabled := false, isLoading := true, name := "", tabs := []
      columns := [], rows := [] } }

/-- Deactivation: the cleanup of the previous activation flips its
`get_data_info` flag `fid`; the effect body then re-runs with
`pageDisabled = true` and returns right after clearing the local state. -/
def deactivateStep (m : PreprocessMachine) (fid : ℕ) : PreprocessMachine :=
  { st := { m.st with
      pageDisabled := true, isLoading := true, name := "", tabs := []
      columns := [], rows := [] }
    canceledFlags := fid :: m.canceledFlags }

/-- Resolution of a `get_data_info` request guarded by flag `fid`
(lines 292–305): `if (isCanceled) return;` else set the name and tab list
(`value.tabs ?? []`), snapshot-apply the sheet info and leave loading. -/
def resolveDataInfoStep (m : PreprocessMachine) (fid : ℕ) (di : DataInfo) :
    PreprocessMachine :=
  if m.canceledFlags.contains fid then m
  else { m with st :=
    { changeSheetInfo
        { m.st with name := di.name, tabs := di.tabs.getD [] } di.sheetInfo
      with isLoading := false } }

/-- `handleSelectTab` (lines 231–251): `if (disabled) return;` else set the
selected tab, enter loading and issue `select_sheet` (guarded by a fresh flag
that, per the fidelity note above, never gets flipped). -/
def selectTabStep (m : PreprocessMachine) (value : String) : PreprocessMachine :=
  if disabled m.st then m
  else { m with st := { m.st with selectedTab := value, isLoading := true } }

/-- Resolution of a `select_sheet` request guarded by flag `fid`
(lines 239–243): `if (isCanceled) return;` else snapshot-apply and leave
loading. -/
def resolveSelectSheetStep (m : PreprocessMachine) (fid : ℕ) (si : SheetInfo) :
    PreprocessMachine :=
  if m.canceledFlags.contains fid then m
  else { m with st := { changeSheetInfo m.st si with isLoading := false } }

/-- One step of the Preprocess page machine. -/
def preprocessStep (m : PreprocessMachine) : PreprocessEvent → PreprocessMachine
  | .activate _ => activateStep m
  | .deactivate fid => deactivateStep m fid
  | .resolveDataInfo fid di => resolveDataInfoStep m fid di
  | .selectTab _ value => selectTabStep m value
  | .resolveSelectSheet fid si => resolveSelectSheetStep m fid si

/-- Run the Preprocess page machine over a trace of events. -/
def preprocessRun (m : PreprocessMachine) (evs : List PreprocessEvent) :
    PreprocessMachine :=
  evs.foldl preprocessStep m

/-- The Preprocess machine before the first activation. -/
def initialPreprocessMachine : PreprocessMachine :=
  { st := initialPreprocessLocal, canceledFlags := [] }

/-- Sheet returned by the first `get_data_info` (tab "A" selected). -/
def sheetInfoA : SheetInfo :=
  { tabName := some "A"
    columns := [⟨"when", "When", .dateTime⟩, ⟨"amount", "Amount", .number⟩]
    rows := [], allowedBatchPeriodes := [.Daily]
    selectedDatetimeColumn := "when", selectedPredictableColumn := "amount"
    selectedBatchPeriode := .Daily
    rowSelection := { type := .exclude', ids := [] } }

/-- Stale sheet for tab "B": the `select_sheet` response that is still in
flight when the step deactivates. -/
def sheetInfoStaleB : SheetInfo :=
  { tabName := some "B"
    columns := [⟨"stale", "Stale", .string⟩]
    rows := [], allowedBatchPeriodes := [.Monthly]
    selectedDatetimeColumn := "stale_dt", selectedPredictableColumn := "stale_num"
    selectedBatchPeriode := .Monthly
    rowSelection := { type := .include', ids := [1] } }

/-- Fresh sheet delivered by `get_data_info` after reactivation (the "new
mock data" of the spec's cancellation test). -/
def sheetInfoFresh : SheetInfo :=
  { tabName := some "A"
    columns := [⟨"fresh", "Fresh", .number⟩]
    rows := [], allowedBatchPeriodes := [.Weekly]
    selectedDatetimeColumn := "fresh_dt", selectedPredictableColumn := "fresh_num"
    selectedBatchPeriode := .Weekly
    rowSelection := { type := .exclude', ids := [] } }

/-- `get_data_info` response of the first activation. -/
def dataInfoFirst : DataInfo :=
  { name := "sales.xlsx", tabs := some ["A", "B"], sheetInfo := sheetInfoA }

/-- `get_data_info` response of the second activation. -/
def dataInfoSecond : DataInfo :=
  { name := "sales.xlsx", tabs := some ["A", "B"], sheetInfo := sheetInfoFresh }

/-- The trace of the spec's cancellation test: activate (flag 0), receive the
snapshot, change tab (issuing `select_sheet` with flag 1), deactivate before
the response arrives, reactivate (flag 2), receive the fresh snapshot, and
only then receive the stale `select_sheet` response. -/
def staleSelectSheetTrace : List PreprocessEvent :=
  [.activate 0, .resolveDataInfo 0 dataInfoFirst, .selectTab 1 "B",
   .deactivate 0, .activate 2, .resolveDataInfo 2 dataInfoSecond,
   .resolveSelectSheet 1 sheetInfoStaleB]

/-- C1 (failing input): the claim requires the stale `select_sheet`
resolution to be discarded, so that after reactivation only the freshly
fetched data is visible.  Running the embedded code over the trace shows the
opposite: the stale response's `isCanceled` flag was never flipped (the
cleanup closure returned by the `onChange` handler `handleSelectTab` is never
invoked), so the stale snapshot-apply goes through and overwrites every field
of the freshly fetched sheet. -/
theorem preprocess_staleSelectSheet_overwrites_fresh :
    (preprocessRun initialPreprocessMachine staleSelectSheetTrace).st.columns =
        sheetInfoStaleB.columns ∧
    (preprocessRun initialPreprocessMachine staleSelectSheetTrace).st.selectedDatetime =
        sheetInfoStaleB.selectedDatetimeColumn ∧
    (preprocessRun initialPreprocessMachine staleSelectSheetTrace).st.columns ≠
        sheetInfoFresh.columns ∧
    ¬ ((preprocessRun initialPreprocessMachine staleSelectSheetTrace).st.columns =
        dataInfoSecond.sheetInfo.columns) := by
  decide

/-! ### Evaluate step (`src/pages/Evaluate.tsx`) -/

/-- `RawComparisonPoint` from `src/pages/Evaluate.tsx`. -/
structure RawComparisonPoint where
  x : String
  y0 : ℚ
  y1 : ℚ
deriving DecidableEq, Repr

/-- `EvaluationReport` from `src/pages/Evaluate.tsx`. -/
structure EvaluationReport where
  confidence : ℚ
  graph : List RawComparisonPoint
  highPeak : Option RawComparisonPoint
  lowPeak : Option RawComparisonPoint
deriving DecidableEq, Repr

/-- The value stored by the `App://evaluate/progress` listener (lines
106–108): `setPredictProgress(Math.round(event.payload * 100) / 100)`.
JavaScript `Math.round` rounds half toward `+∞`, which is Mathlib's
`round`. -/
def progressListenerValue (payload : ℚ) : ℚ := (round (payload * 100) : ℚ) / 100

/-- The displayed progress value as the claim words it: the payload expressed
as a percentage (`payload × 100`) rounded to two decimal places. -/
def claimedProgressPercent (payload : ℚ) : ℚ :=
  (round (payload * 100 * 100) : ℚ) / 100

/-- Machine state of the Evaluate page: the React local state plus the live
progress-listener handles and the flipped `isCanceled` flags of
`get_evaluation` fetches.  The page is in the *Predicting* view while
`report = none` and in the *Ready* view once a report is held. -/
structure EvaluateMachine where
  report : Option EvaluationReport
  predictProgress : ℚ
  subscriptions : List ℕ
  canceledFlags : List ℕ
deriving DecidableEq, Repr

/-- Asynchronous events of the Evaluate page.  `activate fid` is the
`useEffect` body with the page active: it resets the report and progress,
subscribes the progress listener `fid` and starts the `get_evaluation` fetch
guarded by flag `fid`.  `deactivate fid` is the cleanup (unsubscribe `fid`,
flip flag `fid`) followed by the body with `pageDisabled = true` (reset and
return early).  `progress fid payload` delivers an `App://evaluate/progress`
event to listener `fid`; `resolveEvaluation fid value` delivers the
`get_evaluation` response. -/
inductive EvaluateEvent where
  | activate (fid : ℕ)
  | deactivate (fid : ℕ)
  | progress (fid : ℕ) (payload : ℚ)
  | resolveEvaluation (fid : ℕ) (value : EvaluationReport)
deriving DecidableEq, Repr

/-- One step of the Evaluate page machine (`useEffect`, lines 101–120).
Note that the progress listener body is unconditional — it is dropped only
when its subscription has been disposed, which happens in the effect cleanup
and nowhere else. -/
def evaluateStep (m : EvaluateMachine) : EvaluateEvent → EvaluateMachine
  | .activate fid =>
      { m with report := none, predictProgress := 0
               subscriptions := fid :: m.subscriptions }
  | .deactivate fid =>
      { report := none, predictProgress := 0
        subscriptions := m.subscriptions.erase fid
        canceledFlags := fid :: m.canceledFlags }
  | .progress fid payload =>
      if m.subscriptions.contains fid then
        { m with predictProgress := progressListenerValue payload }
      else m
  | .resolveEvaluation fid value =>
      if m.canceledFlags.contains fid then m
      else { m with report := some value }

/-- Run the Evaluate page machine over a trace of events. -/
def evaluateRun (m : EvaluateMachine) (evs : List EvaluateEvent) :
    EvaluateMachine :=
  evs.foldl evaluateStep m

/-- The Evaluate machine before the first activation. -/
def initialEvaluateMachine : EvaluateMachine :=
  { report := none, predictProgress := 0, subscriptions := [], canceledFlags := [] }

/-- A concrete evaluation report. -/
def sampleReport : EvaluationReport :=
  { confidence := 95, graph := [], highPeak := none, lowPeak := none }

/-- C8 (counterexample): at payload `p = 1/2` the code stores and displays
`Math.round(0.5 * 100) / 100 = 0.5`, while the claim demands
`p × 100 = 50` rounded to two decimal places, i.e. `50`.  The payload lies in
`[0, 1]`, so the claim as stated is false on the code. -/
theorem progressListenerValue_ne_claimedPercent :
    (0 : ℚ) ≤ 1 / 2 ∧ (1 / 2 : ℚ) ≤ 1 ∧
    progressListenerValue (1 / 2) = 1 / 2 ∧
    claimedProgressPercent (1 / 2) = 50 ∧
    progressListenerValue (1 / 2) ≠ claimedProgressPercent (1 / 2) := by
  norm_num [progressListenerValue, claimedProgressPercent, round_eq]

/-- C8 (amended): for every payload `p ∈ [0, 1]`, the stored/displayed value
is the *fraction* `p` rounded to two decimal places, `round(100·p)/100`
(rendered with a `%` suffix) — not `p × 100`; it differs from `p` by at most
`1/200` and stays within `[0, 1]`. -/
theorem progressListenerValue_rounds_fraction (p : ℚ) (h0 : 0 ≤ p) (h1 : p ≤ 1) :
    progressListenerValue p = (round (p * 100) : ℚ) / 100 ∧
    |progressListenerValue p - p| ≤ 1 / 200 ∧
    0 ≤ progressListenerValue p ∧ progressListenerValue p ≤ 1 := by
  have habs : |p * 100 - (round (p * 100) : ℚ)| ≤ 1 / 2 := abs_sub_round (p * 100)
  have hlow : (0 : ℤ) ≤ round (p * 100) := by
    rw [round_eq]
    exact Int.le_floor.mpr (by push_cast; linarith)
  have hhigh : round (p * 100) ≤ 100 := by
    rw [round_eq]
    have h2 : (p * 100 + 1 / 2 : ℚ) ≤ 201 / 2 := by linarith
    exact (Int.floor_le_floor h2).trans (by norm_num)
  refine ⟨rfl, ?_, ?_, ?_⟩
  · rw [progressListenerValue, abs_sub_comm]
    have heq : p - (round (p * 100) : ℚ) / 100 =
        (p * 100 - (round (p * 100) : ℚ)) / 100 := by ring
    rw [heq, abs_div, abs_of_pos (by norm_num : (0 : ℚ) < 100)]
    linarith
  · rw [progressListenerValue]
    have : (0 : ℚ) ≤ (round (p * 100) : ℚ) := by exact_mod_cast hlow
    positivity
  · rw [progressListenerValue]
    have : ((round (p * 100) : ℤ) : ℚ) ≤ 100 := by exact_mod_cast hhigh
    linarith

/-- Witness for `progressListenerValue_rounds_fraction` at payload `p = 1`. -/
theorem progressListenerValue_rounds_fraction_witness :
    (0 : ℚ) ≤ 1 ∧ (1 : ℚ) ≤ 1 ∧
    (progressListenerValue 1 = (round ((1 : ℚ) * 100) : ℚ) / 100 ∧
     |progressListenerValue 1 - 1| ≤ 1 / 200 ∧
     0 ≤ progressListenerValue 1 ∧ progressListenerValue 1 ≤ 1) :=
  ⟨zero_le_one, le_refl 1, progressListenerValue_rounds_fraction 1 zero_le_one (le_refl 1)⟩

/-- C9 (counterexample): after `get_evaluation` resolves (transition from
Predicting to Ready), the progress subscription is *not* discarded — a
subsequent `App://evaluate/progress` event still mutates the progress state
within the same activation: delivering payload `1` changes `predictProgress`
from `0` to `1` while the report is already held. -/
theorem evaluate_progress_after_ready_mutates :
    (evaluateRun initialEvaluateMachine
        [.activate 0, .resolveEvaluation 0 sampleReport]).report =
      some sampleReport ∧
    (evaluateRun initialEvaluateMachine
        [.activate 0, .resolveEvaluation 0 sampleReport]).predictProgress = 0 ∧
    (evaluateRun initialEvaluateMachine
        [.activate 0, .resolveEvaluation 0 sampleReport,
          .progress 0 1]).predictProgress = 1 ∧
    (evaluateRun initialEvaluateMachine
        [.activate 0, .resolveEvaluation 0 sampleReport,
          .progress 0 1]).predictProgress ≠
      (evaluateRun initialEvaluateMachine
        [.activate 0, .resolveEvaluation 0 sampleReport]).predictProgress := by
  refine ⟨rfl, rfl, ?_, ?_⟩
  · show progressListenerValue 1 = 1
    norm_num [progressListenerValue, round_eq]
  · show progressListenerValue 1 ≠ 0
    norm_num [progressListenerValue, round_eq]

/-- C9 (amended): the progress subscription is discarded by the deactivation
cleanup, not by the Predicting→Ready transition.  While the listener is
subscribed, a progress event updates the progress state — even when a report
is already held — and never touches the report; once the step deactivates,
the listener is disposed and progress events on it never mutate the progress
state again. -/
theorem evaluate_progress_subscription_spec (m : EvaluateMachine) (fid : ℕ)
    (p : ℚ) (hnd : m.subscriptions.Nodup)
    (hsub : m.subscriptions.contains fid = true) :
    (evaluateStep m (.progress fid p)).predictProgress = progressListenerValue p ∧
    (evaluateStep m (.progress fid p)).report = m.report ∧
    (evaluateStep m (.deactivate fid)).subscriptions.contains fid = false ∧
    (evaluateStep (evaluateStep m (.deactivate fid))
        (.progress fid p)).predictProgress =
      (evaluateStep m (.deactivate fid)).predictProgress := by
  have hmem : fid ∈ m.subscriptions := by simpa using hsub
  have hnotmem : fid ∉ m.subscriptions.erase fid := by
    intro hin
    exact ((List.Nodup.mem_erase_iff hnd).mp hin).1 rfl
  refine ⟨?_, ?_, ?_, ?_⟩
  · simp [evaluateStep, hmem]
  · simp [evaluateStep, hmem]
  · simpa [evaluateStep] using hnotmem
  · simp [evaluateStep, hnotmem]

/-- The Evaluate machine of one activation that has already received its
report (Ready view) with its progress listener still subscribed. -/
def readyEvaluateMachine : EvaluateMachine :=
  { report := some sampleReport, predictProgress := 0
    subscriptions := [0], canceledFlags := [] }

/-- Witness for `evaluate_progress_subscription_spec` on the Ready-view
machine `readyEvaluateMachine`, listener `0`, payload `1`. -/
theorem evaluate_progress_subscription_spec_witness :
    (readyEvaluateMachine.subscriptions.Nodup ∧
      readyEvaluateMachine.subscriptions.contains 0 = true) ∧
    ((evaluateStep readyEvaluateMachine (.progress 0 1)).predictProgress =
        progressListenerValue 1 ∧
     (evaluateStep readyEvaluateMachine (.progress 0 1)).report =
        readyEvaluateMachine.report ∧
     (evaluateStep readyEvaluateMachine (.deactivate 0)).subscriptions.contains 0 =
        false ∧
     (evaluateStep (evaluateStep readyEvaluateMachine (.deactivate 0))
          (.progress 0 1)).predictProgress =
        (evaluateStep readyEvaluateMachine (.deactivate 0)).predictProgress) :=
  ⟨⟨by decide, by decide⟩,
    evaluate_progress_subscription_spec readyEvaluateMachine 0 1
      (by decide) (by decide)⟩
